import Mathlib

/-!
Verification of the security-remediation-system repository.

The backend core (scan lifecycle manager, remediation loop, vector memory) is
a Python service that is not part of the checked-in sources; where a property
is decided by that missing code, the corresponding definition is modelled
from the specification and is marked as such in its doc comment.  Everything
else is a shallow embedding of the checked-in frontend TypeScript
(frontend/src/services/api.ts and the dashboard pages) and of the Terraform
infrastructure modules.
-/

namespace SecRem

/-- Embeds the TypeScript interface CodeChange of the frontend api service. -/
structure CodeChange where
  file_path : String
  original_code : String
  new_code : String
deriving DecidableEq, Repr

/-- Embeds the TypeScript interface Remediation of the frontend api service.
Optional TypeScript fields become Option; the float confidence_score is
embedded as a rational. -/
structure Remediation where
  vulnerability_id : String
  severity : String
  summary : String
  explanation : String
  code_changes : List CodeChange
  security_implications : List String
  is_false_positive : Option Bool
  confidence_score : Option ℚ
  code_diff : Option String
deriving DecidableEq, Repr

/-- Embeds one step of the optional taint_trace of the TypeScript interface
Vulnerability. -/
structure TaintStep where
  file_path : String
  line_number : Nat
  code_snippet : String
  step_description : String
deriving DecidableEq, Repr

/-- Embeds the TypeScript interface Vulnerability of the frontend api
service. -/
structure Vulnerability where
  id : String
  rule_id : String
  message : String
  severity : String
  scanner : String
  file_path : String
  start_line : Nat
  end_line : Nat
  code_snippet : String
  surrounding_context : String
  taint_trace : Option (List TaintStep)
deriving DecidableEq, Repr

/-- Embeds the TypeScript interface ScanDetail of the frontend api service. -/
structure ScanDetail where
  scan_id : String
  repo_url : String
  branch : Option String
  commit_sha : Option String
  timestamp : String
  status : Option String
  vulnerabilities : Option (List Vulnerability)
  remediations : Option (List Remediation)
deriving DecidableEq, Repr

/-! ## Scan detail page: severity weighting and sorting (dashboard/scan/[id]/page.tsx) -/

/-- Embeds the JavaScript toUpperCase call character by character (the
strings compared by the page are ASCII). -/
def toUpperCase (s : String) : String :=
  String.mk (s.data.map Char.toUpper)

/-- Embeds the JavaScript toLowerCase call character by character. -/
def toLowerCase (s : String) : String :=
  String.mk (s.data.map Char.toLower)

/-- Embeds the severity lookup table of getSeverityWeight in the scan detail
page. -/
def severityMap : List (String × Nat) :=
  [("CRITICAL", 4), ("HIGH", 3), ("MEDIUM", 2), ("LOW", 1), ("INFO", 0)]

/-- Embeds getSeverityWeight of the scan detail page: the argument is
optional (the source guards with severity?.), the key is upper-cased, and a
missing table entry falls back to 0 (map[k] or 0). -/
def getSeverityWeight (severity : Option String) : Nat :=
  match severity with
  | none => 0
  | some s => (severityMap.lookup (toUpperCase s)).getD 0

/-- Embeds the scanner filter predicate of filteredVulns in the scan detail
page: the All tab keeps everything, otherwise the scanner tag is compared
case-insensitively. -/
def scannerMatches (selected : String) (v : Vulnerability) : Bool :=
  (selected == "All") || (toLowerCase v.scanner == toLowerCase selected)

/-- Embeds the sort comparator of filteredVulns: (a, b) maps to
getSeverityWeight b minus getSeverityWeight a, i.e. a may precede b exactly
when the weight of b is at most the weight of a. -/
def severityLe (a b : Vulnerability) : Bool :=
  decide (getSeverityWeight (some b.severity) ≤ getSeverityWeight (some a.severity))

/-- Embeds filteredVulns of the scan detail page: filter by the selected
scanner tab, then sort by non-increasing severity weight. -/
def filteredVulns (scan : ScanDetail) (selected : String) : List Vulnerability :=
  ((scan.vulnerabilities.getD []).filter (scannerMatches selected)).mergeSort severityLe

/-! ## Scan detail page: view selection (dashboard/scan/[id]/page.tsx) -/

/-- The four mutually exclusive top-level renderings of the scan detail
page. -/
inductive ScanView where
  | loadingView
  | notFound
  | inProgress
  | results
deriving DecidableEq, Repr

/-- Embeds the isProcessing flag of the scan detail page: the fetched status
string is compared to "queued" and "in_progress"; an absent status matches
neither. -/
def isProcessingStatus (status : Option String) : Bool :=
  (status == some "queued") || (status == some "in_progress")

/-- Embeds the top-level branch structure of the scan detail page component:
loading guard, then the missing-scan branch, then the isProcessing branch,
and otherwise the results view. -/
def scanPageView (loading : Bool) (scan : Option ScanDetail) : ScanView :=
  if loading then .loadingView
  else
    match scan with
    | none => .notFound
    | some s => if isProcessingStatus s.status then .inProgress else .results

/-- Embeds the remediation lookup of the scan detail page: the displayed
remediation is found by matching its vulnerability_id against the selected
rule_id of the vulnerability. -/
def pageRemediation (scan : ScanDetail) (selectedVuln : Option Vulnerability) :
    Option Remediation :=
  match selectedVuln with
  | none => none
  | some v => (scan.remediations.getD []).find? (fun r => r.vulnerability_id == v.rule_id)

/-- At most one remediation per vulnerability key: all entries of the list
carry pairwise distinct vulnerability_id values. -/
def atMostOnePerVuln (rems : List Remediation) : Prop :=
  rems.Pairwise (fun r s => r.vulnerability_id ≠ s.vulnerability_id)

/-- Embeds the Generate AI Remediation click of the scan detail page: the
button is rendered only in the branch where no remediation matches the
selected vulnerability (pageRemediation is none); its handler initialises a
missing remediations array and pushes the returned remediation onto it. -/
def generateClick (scan : ScanDetail) (v : Vulnerability) (rem : Remediation) : ScanDetail :=
  match (scan.remediations.getD []).find? (fun r => r.vulnerability_id == v.rule_id) with
  | some _ => scan
  | none => { scan with remediations := some (scan.remediations.getD [] ++ [rem]) }

/-! ## Frontend api service (frontend/src/services/api.ts) -/

/-- Embeds the axios response wrapper: the service functions return the data
field of the HTTP response. -/
structure AxiosResponse (α : Type) where
  data : α
deriving DecidableEq, Repr

/-- Embeds the API_URL constant of the api service. -/
def apiUrl : String := "/api/v1"

/-- Embeds the payload built by scanApi.triggerScan: the branch argument is
sent as commit_sha and the scanner list as scanner_types. -/
structure ScanPayload where
  repo_url : String
  commit_sha : Option String
  scanner_types : List String
deriving DecidableEq, Repr

/-- Embeds the body construction of scanApi.triggerScan. -/
def triggerScanPayload (repoUrl : String) (branch : Option String)
    (scanners : List String) : ScanPayload :=
  { repo_url := repoUrl, commit_sha := branch, scanner_types := scanners }

/-- Embeds scanApi.generateRemediation: it posts to
/scan/scanId/remediate/vulnId and returns the response data, a Remediation.
The HTTP layer is abstracted as the function argument. -/
def generateRemediation (post : String → AxiosResponse Remediation)
    (scanId vulnId : String) : Remediation :=
  (post (apiUrl ++ "/scan/" ++ scanId ++ "/remediate/" ++ vulnId)).data

/-- Embeds scanApi.generateBatchRemediation: it posts to
/scan/scanId/remediate-all and returns nothing (Promise of void); the
response payload is discarded. -/
def generateBatchRemediation (post : String → AxiosResponse Remediation)
    (scanId : String) : Unit :=
  let _ := post (apiUrl ++ "/scan/" ++ scanId ++ "/remediate-all")
  ()

/-! ## New Scan page (dashboard/scan/new/page.tsx) -/

/-- The three scanner checkboxes offered by the New Scan page; these are the
only strings the page ever passes to toggleScanner. -/
def scannerRegistry : List String := ["semgrep", "checkov", "trivy"]

/-- Embeds the initial scanners state of the New Scan page. -/
def initialScanners : List String := ["semgrep"]

/-- Embeds toggleScanner of the New Scan page: remove the scanner when
present, append it otherwise. -/
def toggleScanner (scanners : List String) (scanner : String) : List String :=
  if scanner ∈ scanners then scanners.filter (fun s => s != scanner)
  else scanners ++ [scanner]

/-- The scanner lists the New Scan page can actually hold: the initial state
and any state reached by clicking one of the three scanner checkboxes. -/
inductive ReachableScanners : List String → Prop where
  | init : ReachableScanners initialScanners
  | toggle {l : List String} (scanner : String) (hs : scanner ∈ scannerRegistry) :
      ReachableScanners l → ReachableScanners (toggleScanner l scanner)

/-- Embeds the disabled attribute of the submit button of the New Scan page:
disabled while submitting or when the scanner list is empty. -/
def submitDisabled (isSubmitting : Bool) (scanners : List String) : Bool :=
  isSubmitting || (scanners.length == 0)

/-! ## Terraform queue module (modules/queue/main.tf) -/

/-- Embeds the redrive_policy attribute an aws_sqs_queue resource may carry:
it names the dead-letter target and the receive count after which a message
is moved there. -/
structure RedrivePolicy where
  deadLetterTargetArn : String
  maxReceiveCount : Nat
deriving DecidableEq, Repr

/-- Embeds an aws_sqs_queue resource; attributes the source omits keep the
AWS defaults (30 s visibility timeout, 4 day retention, no redrive
policy). -/
structure SqsQueue where
  name : String
  visibilityTimeoutSeconds : Nat := 30
  messageRetentionSeconds : Nat := 345600
  redrivePolicy : Option RedrivePolicy := none
deriving DecidableEq, Repr

/-- Embeds aws_sqs_queue.task_queue of the queue module: 600 s visibility
timeout, 86400 s retention; the resource block sets no redrive_policy. -/
def task_queue (projectName environment : String) : SqsQueue :=
  { name := projectName ++ "-tasks-" ++ environment,
    visibilityTimeoutSeconds := 600,
    messageRetentionSeconds := 86400 }

/-- Embeds aws_sqs_queue.dlq of the queue module: only a name is set. -/
def dlq (projectName environment : String) : SqsQueue :=
  { name := projectName ++ "-tasks-dlq-" ++ environment }

/-! ## Terraform iam module -/

/-- Embeds the Action list of aws_iam_policy.vector_db_policy of the iam
module. -/
def vector_db_policy_actions : List String :=
  ["s3vectors:PutVectors", "s3vectors:GetVectors", "s3vectors:QueryVectors",
   "s3vectors:ListVectorBuckets", "s3vectors:ListVectorIndexes"]

/-! ## Spec-modelled backend: remediation loop and persistence

The Python backend (scan lifecycle manager, remediation loop, vector memory)
is not among the checked-in sources; the definitions below are modelled from
the specification, as their doc comments state. -/

/-- A vector-memory record: embedding, finding signature and a reference to
the accepted remediation. -/
structure MemoryRecord where
  signature : String
  embedding : List ℚ
  remediationRef : String
deriving DecidableEq, Repr

/-- A Generator Agent candidate: the proposed fix before the Evaluator has
judged it. -/
structure Candidate where
  summary : String
  explanation : String
  code_changes : List CodeChange
  security_implications : List String
deriving DecidableEq, Repr

/-- An Evaluator Agent verdict: either the finding is judged a false
positive (with the certainty of that judgment), or it is a true positive and
the candidate fix receives a confidence score. -/
inductive EvalVerdict where
  | falsePositive (confidence : ℚ)
  | truePositive (confidence : ℚ)
deriving DecidableEq, Repr

/-- The outcome of one remediation attempt: the persisted remediation,
whether it was accepted by the self-healing gate, and the records upserted
into vector memory. -/
structure LoopResult where
  persisted : Remediation
  accepted : Bool
  memoryUpserts : List MemoryRecord
deriving DecidableEq, Repr

/-- The self-healing acceptance threshold of the remediation loop. -/
def confidenceThreshold : ℚ := 7/10

/-- Modelled from the spec: the Remediation Loop of the missing backend
(spec section 4.4).  A false-positive verdict short-circuits with
is_false_positive true and no code changes; a score at or above the 0.7
threshold accepts, persists the candidate and upserts a new
(signature, embedding, remediationRef) record unless the precedent was
already used; a lower score retries up to the bounded retry count, and an
exhausted bound persists the last candidate marked unaccepted.  The second
Nat argument is the remaining retry budget. -/
def remediationLoop (vulnId sev sig : String) (emb : List ℚ) (ref : String)
    (precedentUsed : Bool) (gen : Nat → Candidate) (ev : Nat → EvalVerdict) :
    Nat → Nat → LoopResult
  | attempt, fuel =>
    match ev attempt with
    | .falsePositive conf =>
        { persisted :=
            { vulnerability_id := vulnId, severity := sev,
              summary := (gen attempt).summary, explanation := (gen attempt).explanation,
              code_changes := [],
              security_implications := (gen attempt).security_implications,
              is_false_positive := some true, confidence_score := some conf,
              code_diff := none },
          accepted := true, memoryUpserts := [] }
    | .truePositive conf =>
        if confidenceThreshold ≤ conf then
          { persisted :=
              { vulnerability_id := vulnId, severity := sev,
                summary := (gen attempt).summary, explanation := (gen attempt).explanation,
                code_changes := (gen attempt).code_changes,
                security_implications := (gen attempt).security_implications,
                is_false_positive := some false, confidence_score := some conf,
                code_diff := none },
            accepted := true,
            memoryUpserts :=
              if precedentUsed then []
              else [{ signature := sig, embedding := emb, remediationRef := ref }] }
        else
          match fuel with
          | 0 =>
              { persisted :=
                  { vulnerability_id := vulnId, severity := sev,
                    summary := (gen attempt).summary,
                    explanation := (gen attempt).explanation,
                    code_changes := (gen attempt).code_changes,
                    security_implications := (gen attempt).security_implications,
                    is_false_positive := some false, confidence_score := some conf,
                    code_diff := none },
                accepted := false, memoryUpserts := [] }
          | fuel2 + 1 =>
              remediationLoop vulnId sev sig emb ref precedentUsed gen ev (attempt + 1) fuel2

/-- Modelled from the spec: persistence of an accepted Remediation in the
missing backend replaces any earlier Remediation for the same vulnerability
key — later accepted remediations replace, never append duplicates (spec
section 3). -/
def persistRemediation (rems : List Remediation) (rem : Remediation) : List Remediation :=
  rems.filter (fun r => r.vulnerability_id != rem.vulnerability_id) ++ [rem]

/-- Modelled from the spec: the single-vulnerability Remediation API endpoint
of the missing backend returns the remediation the loop persisted, while the
batch endpoint acknowledges with no remediation payload (spec section 6). -/
inductive RemediationApiReply where
  | payload (r : Remediation)
  | acceptedNoPayload
deriving DecidableEq, Repr

/-- Modelled from the spec: reply of POST /scan/scanId/remediate/vulnId — the
loop result is returned to the caller. -/
def remediateSingleReply (res : LoopResult) : RemediationApiReply :=
  .payload res.persisted

/-- Modelled from the spec: reply of POST /scan/scanId/remediate-all — the
work is queued and no remediation payload is returned. -/
def remediateAllReply : RemediationApiReply :=
  .acceptedNoPayload

/-! ## Spec-modelled backend: persisted state and scan deletion -/

/-- Modelled from the spec: a consolidated scan document holding the scan,
its vulnerabilities and its remediations, keyed by scan id (spec
section 6). -/
structure ScanDoc where
  scanId : String
  vulnerabilities : List Vulnerability
  remediations : List Remediation
deriving DecidableEq, Repr

/-- Modelled from the spec: the persisted state of the missing backend: scan
documents plus the independently stored, never scan-scoped vector-memory
records (spec sections 4.1 and 6). -/
structure SystemState where
  scans : List ScanDoc
  memory : List MemoryRecord
deriving DecidableEq, Repr

/-- Modelled from the spec: deleteScan of the missing backend removes only
the scan document with the given id — and with it the vulnerabilities and
remediations of that scan — and does not touch vector memory (spec
section 4.1). -/
def deleteScan (st : SystemState) (scanId : String) : SystemState :=
  { scans := st.scans.filter (fun s => s.scanId != scanId), memory := st.memory }

/-! ## Theorems -/

/-- C9: on the scan detail page, for every scanner filter the displayed
vulnerability list is sorted in non-increasing severity weight, with
CRITICAL = 4, HIGH = 3, MEDIUM = 2, LOW = 1, and INFO, a missing severity
and every unrecognized severity string all weighing 0; the weight function
is total over arbitrary strings and case-insensitive. -/
theorem scan_detail_sorted_by_severity_weight :
    (∀ (scan : ScanDetail) (selected : String),
      (filteredVulns scan selected).Pairwise (fun a b =>
        getSeverityWeight (some b.severity) ≤ getSeverityWeight (some a.severity))) ∧
    getSeverityWeight (some "CRITICAL") = 4 ∧
    getSeverityWeight (some "HIGH") = 3 ∧
    getSeverityWeight (some "MEDIUM") = 2 ∧
    getSeverityWeight (some "LOW") = 1 ∧
    getSeverityWeight (some "INFO") = 0 ∧
    getSeverityWeight none = 0 ∧
    (∀ s t : String, toUpperCase s = toUpperCase t →
      getSeverityWeight (some s) = getSeverityWeight (some t)) ∧
    (∀ s : String, toUpperCase s ∉ ["CRITICAL", "HIGH", "MEDIUM", "LOW", "INFO"] →
      getSeverityWeight (some s) = 0) := by
  refine ⟨?_, by decide, by decide, by decide, by decide, by decide, by decide, ?_, ?_⟩
  · intro scan selected
    have hs := @List.sorted_mergeSort _ severityLe
      (fun a b c hab hbc => by
        simp only [severityLe, decide_eq_true_eq] at hab hbc ⊢
        exact le_trans hbc hab)
      (fun a b => by
        simp only [severityLe, Bool.or_eq_true, decide_eq_true_eq]
        exact Nat.le_total _ _)
      ((scan.vulnerabilities.getD []).filter (scannerMatches selected))
    exact hs.imp (fun h => by simpa [severityLe, decide_eq_true_eq] using h)
  · intro s t h
    simp [getSeverityWeight, h]
  · intro s hs
    simp only [List.mem_cons, List.not_mem_nil, or_false, not_or] at hs
    obtain ⟨h1, h2, h3, h4, h5⟩ := hs
    have b1 := beq_eq_false_iff_ne.mpr h1
    have b2 := beq_eq_false_iff_ne.mpr h2
    have b3 := beq_eq_false_iff_ne.mpr h3
    have b4 := beq_eq_false_iff_ne.mpr h4
    have b5 := beq_eq_false_iff_ne.mpr h5
    simp [getSeverityWeight, severityMap, List.lookup, b1, b2, b3, b4, b5]

/-- Closed instance of the C9 theorem at concrete inputs. -/
theorem scan_detail_sorted_by_severity_weight_witness :
    getSeverityWeight (some "WARNING") = 0 ∧
    getSeverityWeight (some "critical") = getSeverityWeight (some "CRITICAL") :=
  ⟨scan_detail_sorted_by_severity_weight.2.2.2.2.2.2.2.2 "WARNING" (by decide),
   scan_detail_sorted_by_severity_weight.2.2.2.2.2.2.2.1 "critical" "CRITICAL" (by decide)⟩

/-- C10: the scan detail page renders the in-progress view exactly when the
fetched status is queued or in_progress; any other fetched status, failed
included, renders the results view, and a scan that could not be fetched
renders the not-found view. -/
theorem scan_page_view_branches :
    scanPageView false none = ScanView.notFound ∧
    (∀ s : ScanDetail, scanPageView false (some s) = ScanView.inProgress ↔
      (s.status = some "queued" ∨ s.status = some "in_progress")) ∧
    (∀ s : ScanDetail, s.status ≠ some "queued" → s.status ≠ some "in_progress" →
      scanPageView false (some s) = ScanView.results) ∧
    (∀ s : ScanDetail, s.status = some "failed" →
      scanPageView false (some s) = ScanView.results) := by
  have hview : ∀ s : ScanDetail, scanPageView false (some s) =
      if isProcessingStatus s.status then ScanView.inProgress else ScanView.results := by
    intro s
    simp [scanPageView]
  have hproc : ∀ s : ScanDetail, isProcessingStatus s.status = true ↔
      (s.status = some "queued" ∨ s.status = some "in_progress") := by
    intro s
    simp [isProcessingStatus]
  refine ⟨rfl, ?_, ?_, ?_⟩
  · intro s
    rw [hview s]
    by_cases h : isProcessingStatus s.status
    · simp only [h, if_true]
      exact iff_of_true trivial ((hproc s).mp h)
    · simp only [h, if_false]
      constructor
      · intro hcon
        exact absurd hcon (by simp)
      · intro hor
        exact absurd ((hproc s).mpr hor) h
  · intro s h1 h2
    rw [hview s, if_neg]
    intro h
    rcases (hproc s).mp h with h | h
    · exact h1 h
    · exact h2 h
  · intro s h
    rw [hview s, if_neg]
    intro hc
    rcases (hproc s).mp hc with hq | hq <;> rw [h] at hq <;> simp at hq

/-- Scan detail record used to instantiate the C10 theorem. -/
def w10scan : ScanDetail :=
  { scan_id := "3f2a", repo_url := "https://github.com/acme/app", branch := none,
    commit_sha := none, timestamp := "2025-01-01T00:00:00Z", status := some "failed",
    vulnerabilities := some [], remediations := some [] }

/-- Closed instance of the C10 theorem: a failed scan renders the results
view. -/
theorem scan_page_view_branches_witness :
    scanPageView false (some w10scan) = ScanView.results :=
  scan_page_view_branches.2.2.2 w10scan rfl

/-- C3: the rule identifier is the join key correlating a vulnerability to
its remediation: whenever the scan detail page displays a remediation for a
selected vulnerability, that remediation is stored on the scan and its
vulnerability_id equals the rule_id of the vulnerability, and nothing is
displayed exactly when no stored remediation matches that rule_id. -/
theorem displayed_remediation_matches_rule_id (scan : ScanDetail) (v : Vulnerability) :
    (∀ r : Remediation, pageRemediation scan (some v) = some r →
      r.vulnerability_id = v.rule_id ∧ r ∈ scan.remediations.getD []) ∧
    (pageRemediation scan (some v) = none →
      ∀ r ∈ scan.remediations.getD [], r.vulnerability_id ≠ v.rule_id) := by
  constructor
  · intro r h
    have h2 : (scan.remediations.getD []).find?
        (fun r => r.vulnerability_id == v.rule_id) = some r := h
    refine ⟨?_, List.mem_of_find?_eq_some h2⟩
    have h3 := List.find?_some h2
    exact beq_iff_eq.mp h3
  · intro h r hr hne
    have h2 : (scan.remediations.getD []).find?
        (fun r => r.vulnerability_id == v.rule_id) = none := h
    rw [List.find?_eq_none] at h2
    exact h2 r hr (beq_iff_eq.mpr hne)

/-- Remediation record used to instantiate the C3 theorem. -/
def w3rem : Remediation :=
  { vulnerability_id := "bandit.B105", severity := "HIGH",
    summary := "Remove the hardcoded password", explanation := "Use an env var",
    code_changes := [], security_implications := [], is_false_positive := none,
    confidence_score := none, code_diff := none }

/-- Vulnerability record used to instantiate the C3 theorem. -/
def w3vuln : Vulnerability :=
  { id := "v-1", rule_id := "bandit.B105", message := "Hardcoded password",
    severity := "HIGH", scanner := "semgrep", file_path := "app.py",
    start_line := 3, end_line := 3, code_snippet := "pw = 123",
    surrounding_context := "", taint_trace := none }

/-- Scan detail record used to instantiate the C3 theorem. -/
def w3scan : ScanDetail :=
  { scan_id := "s-1", repo_url := "https://github.com/acme/app", branch := none,
    commit_sha := none, timestamp := "2025-01-01T00:00:00Z",
    status := some "completed", vulnerabilities := some [w3vuln],
    remediations := some [w3rem] }

/-- Closed instance of the C3 theorem: the displayed remediation for the
selected vulnerability carries its rule_id and is stored on the scan. -/
theorem displayed_remediation_matches_rule_id_witness :
    w3rem.vulnerability_id = w3vuln.rule_id ∧ w3rem ∈ w3scan.remediations.getD [] :=
  (displayed_remediation_matches_rule_id w3scan w3vuln).1 w3rem rfl

/-- C2: at most one remediation per vulnerability per scan: the Generate AI
Remediation click of the scan detail page appends only in the branch where
no stored remediation matches the selected vulnerability, so it preserves
the at-most-one-per-vulnerability invariant, and the spec-modelled backend
persistence of a later accepted remediation replaces the earlier entry for
the same vulnerability key instead of appending a duplicate. -/
theorem at_most_one_remediation_per_vuln :
    (∀ (scan : ScanDetail) (v : Vulnerability) (rem : Remediation),
      rem.vulnerability_id = v.rule_id →
      atMostOnePerVuln (scan.remediations.getD []) →
      atMostOnePerVuln ((generateClick scan v rem).remediations.getD [])) ∧
    (∀ (rems : List Remediation) (rem : Remediation),
      atMostOnePerVuln rems →
      atMostOnePerVuln (persistRemediation rems rem) ∧
      (persistRemediation rems rem).filter
        (fun r => r.vulnerability_id == rem.vulnerability_id) = [rem]) := by
  constructor
  · intro scan v rem hkey hinv
    cases hfind : (scan.remediations.getD []).find?
        (fun r => r.vulnerability_id == v.rule_id) with
    | some r =>
        simpa [generateClick, hfind] using hinv
    | none =>
        have hnone := List.find?_eq_none.mp hfind
        simp only [generateClick, hfind, Option.getD_some]
        rw [atMostOnePerVuln, List.pairwise_append]
        refine ⟨hinv, List.pairwise_singleton _ _, ?_⟩
        intro a ha b hb
        have hb2 : b = rem := by simpa using hb
        subst hb2
        intro hcon
        exact hnone a ha (by rw [beq_iff_eq, hcon, hkey])
  · intro rems rem hinv
    constructor
    · rw [atMostOnePerVuln, persistRemediation, List.pairwise_append]
      refine ⟨List.Pairwise.filter _ hinv, List.pairwise_singleton _ _, ?_⟩
      intro a ha b hb
      have hb2 : b = rem := by simpa using hb
      subst hb2
      have hp := (List.mem_filter.mp ha).2
      simpa [bne_iff_ne] using hp
    · rw [persistRemediation, List.filter_append]
      have h1 : (rems.filter (fun r => r.vulnerability_id != rem.vulnerability_id)).filter
          (fun r => r.vulnerability_id == rem.vulnerability_id) = [] := by
        rw [List.filter_eq_nil_iff]
        intro a ha
        have hp := (List.mem_filter.mp ha).2
        simp only [bne_iff_ne] at hp
        simp [hp]
      rw [h1]
      simp

/-- Remediation record used to instantiate the C2 theorem. -/
def w2rem : Remediation :=
  { vulnerability_id := "CKV_AWS_19", severity := "MEDIUM",
    summary := "Enable bucket encryption", explanation := "Add SSE config",
    code_changes := [], security_implications := [], is_false_positive := none,
    confidence_score := none, code_diff := none }

/-- Vulnerability record used to instantiate the C2 theorem. -/
def w2vuln : Vulnerability :=
  { id := "v-2", rule_id := "CKV_AWS_19", message := "Bucket not encrypted",
    severity := "MEDIUM", scanner := "checkov", file_path := "main.tf",
    start_line := 10, end_line := 14, code_snippet := "resource",
    surrounding_context := "", taint_trace := none }

/-- Scan detail record used to instantiate the C2 theorem. -/
def w2scan : ScanDetail :=
  { scan_id := "s-2", repo_url := "https://github.com/acme/infra", branch := none,
    commit_sha := none, timestamp := "2025-01-02T00:00:00Z",
    status := some "completed", vulnerabilities := some [w2vuln],
    remediations := some [] }

/-- Closed instance of the C2 theorem at concrete inputs. -/
theorem at_most_one_remediation_per_vuln_witness :
    atMostOnePerVuln ((generateClick w2scan w2vuln w2rem).remediations.getD []) ∧
    (persistRemediation [w2rem] w2rem).filter
      (fun r => r.vulnerability_id == w2rem.vulnerability_id) = [w2rem] :=
  ⟨at_most_one_remediation_per_vuln.1 w2scan w2vuln w2rem rfl List.Pairwise.nil,
   (at_most_one_remediation_per_vuln.2 [w2rem] w2rem
     (List.pairwise_singleton _ _)).2⟩

/-- Helper: every scanner list the New Scan page can reach is drawn from the
scanner registry. -/
theorem reachableScanners_subset :
    ∀ l : List String, ReachableScanners l → l ⊆ scannerRegistry := by
  intro l h
  induction h with
  | init =>
      intro a ha
      have : a = "semgrep" := by simpa [initialScanners] using ha
      subst this
      simp [scannerRegistry]
  | toggle scanner hs hprev ih =>
      rename_i l2
      intro a ha
      by_cases hmem : scanner ∈ l2
      · rw [toggleScanner, if_pos hmem] at ha
        exact ih (List.mem_of_mem_filter ha)
      · rw [toggleScanner, if_neg hmem] at ha
        rcases List.mem_append.mp ha with h2 | h2
        · exact ih h2
        · have : a = scanner := by simpa using h2
          subst this
          exact hs

/-- C6: the New Scan page never issues triggerScan with an empty scanner
list (the submit button is disabled whenever the list is empty), and every
scanner_types list it can send is nonempty and a subset of the known
registry, namely semgrep, checkov and trivy. -/
theorem new_scan_scanner_set_valid :
    (∀ l : List String, ReachableScanners l → l ⊆ scannerRegistry) ∧
    (∀ (l : List String) (b : Bool) (repoUrl : String) (branch : Option String),
      ReachableScanners l → submitDisabled b l = false →
      (triggerScanPayload repoUrl branch l).scanner_types ≠ [] ∧
      (triggerScanPayload repoUrl branch l).scanner_types ⊆ scannerRegistry) ∧
    (∀ b : Bool, submitDisabled b [] = true) := by
  refine ⟨reachableScanners_subset, ?_, ?_⟩
  · intro l b repoUrl branch hreach hdis
    refine ⟨?_, reachableScanners_subset l hreach⟩
    intro hnil
    rw [show (triggerScanPayload repoUrl branch l).scanner_types = l from rfl] at hnil
    subst hnil
    simp [submitDisabled] at hdis
  · intro b
    simp [submitDisabled]

/-- Closed instance of the C6 theorem: the state reached by also ticking the
checkov box submits a nonempty scanner set drawn from the registry. -/
theorem new_scan_scanner_set_valid_witness :
    (triggerScanPayload "https://github.com/acme/app" none
      ["semgrep", "checkov"]).scanner_types ≠ [] ∧
    (triggerScanPayload "https://github.com/acme/app" none
      ["semgrep", "checkov"]).scanner_types ⊆ scannerRegistry :=
  have h : ReachableScanners ["semgrep", "checkov"] := by
    simpa [toggleScanner, initialScanners] using
      ReachableScanners.toggle "checkov" (by decide) ReachableScanners.init
  new_scan_scanner_set_valid.2.1 ["semgrep", "checkov"] false
    "https://github.com/acme/app" none h (by decide)

/-- C7: the failing half of the claim, evaluated on the Terraform source:
the task queue has the 600 second visibility timeout (so a failed task does
become redeliverable), but the resource sets no redrive_policy, so the task
queue is not connected to the dead-letter queue and a repeatedly failing
task is redelivered until the 86400 second retention drops it, never moved
to the dlq. -/
theorem task_queue_not_connected_to_dlq (projectName environment : String) :
    (task_queue projectName environment).visibilityTimeoutSeconds = 600 ∧
    (task_queue projectName environment).messageRetentionSeconds = 86400 ∧
    (task_queue projectName environment).redrivePolicy = none :=
  ⟨rfl, rfl, rfl⟩

/-- C8: deleting a scan removes exactly the scan document with that id — and
with it the vulnerabilities and remediations of that scan — while vector memory
is untouched, so every memory record queryable before the deletion is
queryable after it; moreover the runtime IAM policy for the vector store
grants no delete action at all. -/
theorem scan_deletion_preserves_memory (st : SystemState) (scanId : String) :
    (deleteScan st scanId).memory = st.memory ∧
    (∀ rec : MemoryRecord, rec ∈ st.memory → rec ∈ (deleteScan st scanId).memory) ∧
    (∀ s : ScanDoc, s ∈ (deleteScan st scanId).scans ↔
      (s ∈ st.scans ∧ s.scanId ≠ scanId)) ∧
    "s3vectors:DeleteVectors" ∉ vector_db_policy_actions := by
  refine ⟨rfl, fun rec h => h, ?_, by decide⟩
  intro s
  simp [deleteScan, List.mem_filter, bne_iff_ne]

/-- Memory record used to instantiate the C8 theorem. -/
def w8rec : MemoryRecord :=
  { signature := "bandit.B105|hardcoded password|python", embedding := [1, 0],
    remediationRef := "rem-41" }

/-- System state used to instantiate the C8 theorem. -/
def w8st : SystemState :=
  { scans := [{ scanId := "s-8", vulnerabilities := [], remediations := [] }],
    memory := [w8rec] }

/-- Closed instance of the C8 theorem: the memory record derived from the
remediation of the deleted scan is still present after the deletion. -/
theorem scan_deletion_preserves_memory_witness :
    w8rec ∈ (deleteScan w8st "s-8").memory :=
  (scan_deletion_preserves_memory w8st "s-8").2.1 w8rec (List.mem_cons_self _ _)

/-- C5: the single-vulnerability trigger returns the generated remediation to
its caller — the api service returns the response data of the POST to
/scan/scanId/remediate/vulnId, which the spec-modelled backend fills with the
remediation the loop persisted — while the batch trigger returns no
remediation payload: the api service discards the response of the POST to
/scan/scanId/remediate-all and the spec-modelled backend acknowledges the
asynchronous batch with no payload. -/
theorem single_remediate_returns_payload_batch_does_not :
    (∀ (post : String → AxiosResponse Remediation) (scanId vulnId : String),
      generateRemediation post scanId vulnId =
        (post (apiUrl ++ "/scan/" ++ scanId ++ "/remediate/" ++ vulnId)).data) ∧
    (∀ (post : String → AxiosResponse Remediation) (scanId : String),
      generateBatchRemediation post scanId = ()) ∧
    (∀ res : LoopResult,
      remediateSingleReply res = RemediationApiReply.payload res.persisted) ∧
    remediateAllReply = RemediationApiReply.acceptedNoPayload :=
  ⟨fun _ _ _ => rfl, fun _ _ => rfl, fun _ => rfl, rfl⟩

/-- C1: confidence-gated acceptance — whenever a remediation attempt of the
spec-modelled loop upserts anything into vector memory, the remediation it
persisted was accepted with is_false_positive false and a confidence score
of at least the 0.7 threshold; hence no false positive and no low-confidence
remediation ever creates a memory record. -/
theorem memory_upsert_confidence_gated
    (vulnId sev sig : String) (emb : List ℚ) (ref : String) (precedentUsed : Bool)
    (gen : Nat → Candidate) (ev : Nat → EvalVerdict) (attempt fuel : Nat)
    (h : (remediationLoop vulnId sev sig emb ref precedentUsed gen ev
      attempt fuel).memoryUpserts ≠ []) :
    (remediationLoop vulnId sev sig emb ref precedentUsed gen ev
      attempt fuel).persisted.is_false_positive = some false ∧
    (remediationLoop vulnId sev sig emb ref precedentUsed gen ev
      attempt fuel).accepted = true ∧
    ∃ conf : ℚ, (remediationLoop vulnId sev sig emb ref precedentUsed gen ev
      attempt fuel).persisted.confidence_score = some conf ∧
      confidenceThreshold ≤ conf := by
  revert attempt
  induction fuel with
  | zero =>
      intro attempt h
      cases hev : ev attempt with
      | falsePositive conf =>
          rw [remediationLoop, hev] at h
          exact absurd rfl h
      | truePositive conf =>
          by_cases hc : confidenceThreshold ≤ conf
          · rw [remediationLoop, hev]
            refine ⟨?_, ?_, conf, ?_, hc⟩ <;> simp [hc]
          · rw [remediationLoop, hev] at h
            simp only [if_neg hc] at h
            exact absurd rfl h
  | succ fuel2 ih =>
      intro attempt h
      cases hev : ev attempt with
      | falsePositive conf =>
          rw [remediationLoop, hev] at h
          exact absurd rfl h
      | truePositive conf =>
          by_cases hc : confidenceThreshold ≤ conf
          · rw [remediationLoop, hev]
            refine ⟨?_, ?_, conf, ?_, hc⟩ <;> simp [hc]
          · rw [remediationLoop, hev] at h ⊢
            simp only [if_neg hc] at h ⊢
            exact ih (attempt + 1) h

/-- Candidate fix used to instantiate the C1 and C4 theorems. -/
def w1cand : Candidate :=
  { summary := "Use a parameterized query",
    explanation := "String interpolation into SQL allows injection",
    code_changes := [{ file_path := "app.py", original_code := "q = f",
                       new_code := "q = ?" }],
    security_implications := ["behaviour unchanged for well-formed input"] }

/-- Closed instance of the C1 theorem: an attempt whose evaluation scores
0.9 upserts a record, and the persisted remediation is accepted, not a false
positive and carries a confidence of at least the threshold. -/
theorem memory_upsert_confidence_gated_witness :
    (remediationLoop "r1" "HIGH" "sig-1" [1] "rem-1" false (fun _ => w1cand)
      (fun _ => EvalVerdict.truePositive (9/10)) 0 2).persisted.is_false_positive =
        some false ∧
    (remediationLoop "r1" "HIGH" "sig-1" [1] "rem-1" false (fun _ => w1cand)
      (fun _ => EvalVerdict.truePositive (9/10)) 0 2).accepted = true :=
  have h := memory_upsert_confidence_gated "r1" "HIGH" "sig-1" [1] "rem-1" false
    (fun _ => w1cand) (fun _ => EvalVerdict.truePositive (9/10)) 0 2
    (by norm_num [remediationLoop, confidenceThreshold])
  ⟨h.1, h.2.1⟩

/-- C4: every remediation the spec-modelled loop persists with
is_false_positive true has an empty code_changes list. -/
theorem false_positive_has_no_code_changes
    (vulnId sev sig : String) (emb : List ℚ) (ref : String) (precedentUsed : Bool)
    (gen : Nat → Candidate) (ev : Nat → EvalVerdict) (attempt fuel : Nat)
    (h : (remediationLoop vulnId sev sig emb ref precedentUsed gen ev
      attempt fuel).persisted.is_false_positive = some true) :
    (remediationLoop vulnId sev sig emb ref precedentUsed gen ev
      attempt fuel).persisted.code_changes = [] := by
  revert attempt
  induction fuel with
  | zero =>
      intro attempt h
      cases hev : ev attempt with
      | falsePositive conf =>
          rw [remediationLoop, hev]
      | truePositive conf =>
          by_cases hc : confidenceThreshold ≤ conf
          · rw [remediationLoop, hev] at h
            simp only [if_pos hc] at h
            exact absurd h (by simp)
          · rw [remediationLoop, hev] at h
            simp only [if_neg hc] at h
            exact absurd h (by simp)
  | succ fuel2 ih =>
      intro attempt h
      cases hev : ev attempt with
      | falsePositive conf =>
          rw [remediationLoop, hev]
      | truePositive conf =>
          by_cases hc : confidenceThreshold ≤ conf
          · rw [remediationLoop, hev] at h
            simp only [if_pos hc] at h
            exact absurd h (by simp)
          · rw [remediationLoop, hev] at h ⊢
            simp only [if_neg hc] at h ⊢
            exact ih (attempt + 1) h

/-- Closed instance of the C4 theorem: an attempt judged a false positive
persists a remediation with no code changes. -/
theorem false_positive_has_no_code_changes_witness :
    (remediationLoop "r1" "HIGH" "sig-1" [1] "rem-1" false (fun _ => w1cand)
      (fun _ => EvalVerdict.falsePositive (8/10)) 0 2).persisted.code_changes = [] :=
  false_positive_has_no_code_changes "r1" "HIGH" "sig-1" [1] "rem-1" false
    (fun _ => w1cand) (fun _ => EvalVerdict.falsePositive (8/10)) 0 2 rfl

end SecRem
